import Mathlib

/-!
# Verification of the mosaic-agents agent-creator API and chart-visualizer dispatch

Shallow embedding of `backend/app/agent_creator_api.py` and
`backend/ui/components/chart_visualizer.py`.  JSON documents are modelled by
the inductive `Json`; Python exceptions are modelled by `Except String`;
the FastAPI transport (`HTTPException`) is modelled by `HttpErr`; external
collaborators (the template engine's `deploy_agent`, `validate_agent_template`,
the agent registry) are passed in as function parameters.
-/

set_option linter.unusedVariables false

namespace Mosaic

/-- A JSON value, as produced by Python's `json` module (dict insertion order
is preserved, so objects are association lists). Numbers are modelled as
integers: every numeric literal appearing in the embedded code is integral. -/
inductive Json where
  | null : Json
  | bool : Bool → Json
  | num : Int → Json
  | str : String → Json
  | arr : List Json → Json
  | obj : List (String × Json) → Json
deriving Repr, Inhabited

/-- Python `d.get(k)` on a dict: `none` when the key is absent.  The embedded
endpoints and handlers only call `.get` on values the transport guarantees to
be JSON objects (FastAPI `Dict[str, Any]` bodies, websocket event dicts), so
non-object scrutinees return `none` here. -/
def Json.get? : Json → String → Option Json
  | .obj fs, k => fs.lookup k
  | _, _ => none

/-- Python `d.get(k, dflt)` on a dict known to the transport to be an object. -/
def Json.getD (j : Json) (k : String) (dflt : Json) : Json :=
  (j.get? k).getD dflt

/-- Python `x.get(k, dflt)` where `x` is an arbitrary value: raises
`AttributeError` when `x` is not a dict. -/
def pyDictGet (j : Json) (k : String) (dflt : Json) : Except String Json :=
  match j with
  | .obj fs => .ok ((fs.lookup k).getD dflt)
  | _ => .error "AttributeError: object has no attribute get"

/-- Python `x[k]` subscription: `KeyError` when the key is absent,
`TypeError` when `x` is not a dict. -/
def pyIndex (j : Json) (k : String) : Except String Json :=
  match j with
  | .obj fs =>
    match fs.lookup k with
    | some v => .ok v
    | none => .error ("KeyError: " ++ k)
  | _ => .error "TypeError: object is not subscriptable"

/-- Python truthiness of a JSON value (`bool(x)`). -/
def pyTruthy : Json → Bool
  | .null => false
  | .bool b => b
  | .num n => n != 0
  | .str s => s != ""
  | .arr xs => !xs.isEmpty
  | .obj fs => !fs.isEmpty

/-- Python `str(x)` on a JSON value; container rendering follows `repr`
shape (the embedded claims never depend on the exact container text). -/
def pyStr : Json → String
  | .null => "None"
  | .bool true => "True"
  | .bool false => "False"
  | .num n => toString n
  | .str s => s
  | .arr xs => "[" ++ String.intercalate ", " (xs.attach.map fun x => pyStr x.1) ++ "]"
  | .obj fs => "\x7b" ++ String.intercalate ", " (fs.attach.map fun p => p.1.1 ++ ": " ++ pyStr p.1.2) ++ "\x7d"
decreasing_by
  · have h := List.sizeOf_lt_of_mem x.2
    simp only [Json.arr.sizeOf_spec]
    omega
  · have h := List.sizeOf_lt_of_mem p.2
    obtain ⟨⟨a, b⟩, hp⟩ := p
    simp only [Prod.mk.sizeOf_spec] at h
    simp only [Json.obj.sizeOf_spec]
    omega

/-- Python `x == "lit"`: equality of an arbitrary value against a string
literal (false for every non-string value). -/
def Json.eqStr (j : Json) (s : String) : Bool :=
  match j with
  | .str t => t == s
  | _ => false

/-- Assigning `key` in a Python dict (association list): an existing binding
is updated in place (its insertion position is kept), a fresh key is appended
at the end — the semantics of `d[key] = v` and of a colliding key in a dict
literal or `**`-spread. -/
def setField (fs : List (String × Json)) (key : String) (v : Json) :
    List (String × Json) :=
  match fs with
  | [] => [(key, v)]
  | (k, w) :: rest =>
    if k == key then (k, v) :: rest else (k, w) :: setField rest key v

/-- Python `json.dumps(x)` (string escaping elided; no embedded claim
depends on the serialized text, only on it being passed along). -/
def json_dumps : Json → String
  | .null => "null"
  | .bool true => "true"
  | .bool false => "false"
  | .num n => toString n
  | .str s => "\"" ++ s ++ "\""
  | .arr xs => "[" ++ String.intercalate ", " (xs.attach.map fun x => json_dumps x.1) ++ "]"
  | .obj fs => "\x7b" ++ String.intercalate ", " (fs.attach.map fun p => "\"" ++ p.1.1 ++ "\": " ++ json_dumps p.1.2) ++ "\x7d"
decreasing_by
  · have h := List.sizeOf_lt_of_mem x.2
    simp only [Json.arr.sizeOf_spec]
    omega
  · have h := List.sizeOf_lt_of_mem p.2
    obtain ⟨⟨a, b⟩, hp⟩ := p
    simp only [Prod.mk.sizeOf_spec] at h
    simp only [Json.obj.sizeOf_spec]
    omega

/-!
## `backend/ui/components/chart_visualizer.py`

The running `chart_data_generator` agent instance, the agent directory
returned by `get_initialized_agents()`, and the websocket are external
collaborators: the instance is modelled by `RunningAgent`, the directory by a
function parameter, and "sending on the websocket" by returning the single
`UIResponse` value that `_send_response` delivers.  A tool's `func` may raise,
modelled by `Except String`.
-/

/-- One entry of a running agent's `tools` collection: a unique `name` and an
invocable `func` taking keyword arguments. -/
structure ToolEntry where
  name : String
  func : List (String × Json) → Except String Json

/-- A `RunningAgentInstance` as consumed by the dispatch component: it only
exposes the `tools` collection. -/
structure RunningAgent where
  tools : List ToolEntry

/-- The directory returned by `get_initialized_agents()`: `.get(name)` is
`none` when no instance with that name is registered. -/
def AgentDirectory : Type := String → Option RunningAgent

/-- The constructor `ChartVisualizerComponent.__init__` sets `component_id="chart-visualizer"`. -/
def component_id : String := "chart-visualizer"

/-- The single reply envelope delivered over the websocket. -/
structure UIResponse where
  type : String
  data : List (String × Json)

/-- Method `ChartVisualizerComponent._send_response`: wraps `response_data` in the
envelope `{type: "ui_event", data: {component, action, requestId, ...payload}}`,
defaulting `action`/`requestId` to `"unknown"` when absent from the event.
The dict literal inserts `component`, `action` and `requestId` first and then
spreads `**response_data`, so a payload key that collides with one of the
three envelope keys overrides its value (Python dict-literal semantics,
modelled by folding `setField` over the payload). -/
def _send_response (event : Json) (response_data : List (String × Json)) : UIResponse :=
  { type := "ui_event"
    data := response_data.foldl (fun acc p => setField acc p.1 p.2)
        [("component", .str component_id),
         ("action", (event.get? "action").getD (.str "unknown")),
         ("requestId", (event.get? "requestId").getD (.str "unknown"))] }

/-- Method `ChartVisualizerComponent._get_agent_runner`: looks up the statically
known name `"chart_data_generator"` in the initialized-agents directory. -/
def _get_agent_runner (agents : AgentDirectory) : Option RunningAgent :=
  agents "chart_data_generator"

/-- Handler `ChartVisualizerComponent.handle_get_bar_chart_data`: extracts
the parameters from `event.get("data", {})` first (each `params.get` raises
`AttributeError` when the event's `data` value is not a dict), then resolves
the agent, locates the tool by linear scan, and invokes it; any exception is
caught and answered with a `success = false` envelope. -/
def handle_get_bar_chart_data (agents : AgentDirectory) (event : Json)
    (agent_id client_id : String) : UIResponse :=
  let params := event.getD "data" (.obj [])
  let outcome : Except String Json :=
    match pyDictGet params "categories" .null with
    | .error e => .error e
    | .ok categories =>
      match pyDictGet params "min_value" (.num 0) with
      | .error e => .error e
      | .ok min_value =>
        match pyDictGet params "max_value" (.num 100) with
        | .error e => .error e
        | .ok max_value =>
          match pyDictGet params "num_categories" (.num 5) with
          | .error e => .error e
          | .ok num_categories =>
            match _get_agent_runner agents with
            | none => .error ("Agent " ++ agent_id ++ " not found")
            | some agent =>
              match agent.tools.find? (fun t => t.name == "generate_bar_chart_data") with
              | none => .error "generate_bar_chart_data tool not found"
              | some tool =>
                tool.func
                  [ ("categories", categories),
                    ("min_value", min_value),
                    ("max_value", max_value),
                    ("num_categories", num_categories) ]
  match outcome with
  | .ok result =>
    _send_response event [("success", .bool true), ("chart_data", result)]
  | .error e =>
    _send_response event
      [("success", .bool false), ("error", .str ("Error getting bar chart data: " ++ e))]

/-- Handler `ChartVisualizerComponent.handle_get_line_chart_data`: parameter
extraction (with its `AttributeError` path on a non-dict `data`) precedes the
agent lookup, as in the source. -/
def handle_get_line_chart_data (agents : AgentDirectory) (event : Json)
    (agent_id client_id : String) : UIResponse :=
  let params := event.getD "data" (.obj [])
  let outcome : Except String Json :=
    match pyDictGet params "points" (.num 20) with
    | .error e => .error e
    | .ok points =>
      match pyDictGet params "min_value" (.num 0) with
      | .error e => .error e
      | .ok min_value =>
        match pyDictGet params "max_value" (.num 100) with
        | .error e => .error e
        | .ok max_value =>
          match pyDictGet params "num_series" (.num 1) with
          | .error e => .error e
          | .ok num_series =>
            match pyDictGet params "series_names" .null with
            | .error e => .error e
            | .ok series_names =>
              match _get_agent_runner agents with
              | none => .error ("Agent " ++ agent_id ++ " not found")
              | some agent =>
                match agent.tools.find? (fun t => t.name == "generate_line_chart_data") with
                | none => .error "generate_line_chart_data tool not found"
                | some tool =>
                  tool.func
                    [ ("points", points),
                      ("min_value", min_value),
                      ("max_value", max_value),
                      ("num_series", num_series),
                      ("series_names", series_names) ]
  match outcome with
  | .ok result =>
    _send_response event [("success", .bool true), ("chart_data", result)]
  | .error e =>
    _send_response event
      [("success", .bool false), ("error", .str ("Error getting line chart data: " ++ e))]

/-- Handler `ChartVisualizerComponent.handle_get_pie_chart_data`: parameter
extraction (with its `AttributeError` path on a non-dict `data`) precedes the
agent lookup, as in the source. -/
def handle_get_pie_chart_data (agents : AgentDirectory) (event : Json)
    (agent_id client_id : String) : UIResponse :=
  let params := event.getD "data" (.obj [])
  let outcome : Except String Json :=
    match pyDictGet params "segments" .null with
    | .error e => .error e
    | .ok segments =>
      match pyDictGet params "min_value" (.num 10) with
      | .error e => .error e
      | .ok min_value =>
        match pyDictGet params "max_value" (.num 100) with
        | .error e => .error e
        | .ok max_value =>
          match pyDictGet params "num_segments" (.num 5) with
          | .error e => .error e
          | .ok num_segments =>
            match _get_agent_runner agents with
            | none => .error ("Agent " ++ agent_id ++ " not found")
            | some agent =>
              match agent.tools.find? (fun t => t.name == "generate_pie_chart_data") with
              | none => .error "generate_pie_chart_data tool not found"
              | some tool =>
                tool.func
                  [ ("segments", segments),
                    ("min_value", min_value),
                    ("max_value", max_value),
                    ("num_segments", num_segments) ]
  match outcome with
  | .ok result =>
    _send_response event [("success", .bool true), ("chart_data", result)]
  | .error e =>
    _send_response event
      [("success", .bool false), ("error", .str ("Error getting pie chart data: " ++ e))]

/-- Handler `ChartVisualizerComponent.handle_get_scatter_plot_data`:
parameter extraction (with its `AttributeError` path on a non-dict `data`)
precedes the agent lookup, as in the source. -/
def handle_get_scatter_plot_data (agents : AgentDirectory) (event : Json)
    (agent_id client_id : String) : UIResponse :=
  let params := event.getD "data" (.obj [])
  let outcome : Except String Json :=
    match pyDictGet params "points" (.num 50) with
    | .error e => .error e
    | .ok points =>
      match pyDictGet params "x_min" (.num 0) with
      | .error e => .error e
      | .ok x_min =>
        match pyDictGet params "x_max" (.num 100) with
        | .error e => .error e
        | .ok x_max =>
          match pyDictGet params "y_min" (.num 0) with
          | .error e => .error e
          | .ok y_min =>
            match pyDictGet params "y_max" (.num 100) with
            | .error e => .error e
            | .ok y_max =>
              match pyDictGet params "num_series" (.num 1) with
              | .error e => .error e
              | .ok num_series =>
                match pyDictGet params "series_names" .null with
                | .error e => .error e
                | .ok series_names =>
                  match _get_agent_runner agents with
                  | none => .error ("Agent " ++ agent_id ++ " not found")
                  | some agent =>
                    match agent.tools.find?
                        (fun t => t.name == "generate_scatter_plot_data") with
                    | none => .error "generate_scatter_plot_data tool not found"
                    | some tool =>
                      tool.func
                        [ ("points", points),
                          ("x_min", x_min),
                          ("x_max", x_max),
                          ("y_min", y_min),
                          ("y_max", y_max),
                          ("num_series", num_series),
                          ("series_names", series_names) ]
  match outcome with
  | .ok result =>
    _send_response event [("success", .bool true), ("chart_data", result)]
  | .error e =>
    _send_response event
      [("success", .bool false), ("error", .str ("Error getting scatter plot data: " ++ e))]

/-- Router `ChartVisualizerComponent.handle_get_chart_data`: multiplexes on the
`chart_type` discriminator (`data.get("chart_type", "bar")`, Python `==`
against the four string literals) and otherwise replies with an
unsupported-type error. -/
def handle_get_chart_data (agents : AgentDirectory) (event : Json)
    (agent_id client_id : String) : UIResponse :=
  let params := event.getD "data" (.obj [])
  let chart_type := params.getD "chart_type" (.str "bar")
  if chart_type.eqStr "bar" then
    handle_get_bar_chart_data agents event agent_id client_id
  else if chart_type.eqStr "line" then
    handle_get_line_chart_data agents event agent_id client_id
  else if chart_type.eqStr "pie" then
    handle_get_pie_chart_data agents event agent_id client_id
  else if chart_type.eqStr "scatter" then
    handle_get_scatter_plot_data agents event agent_id client_id
  else
    _send_response event
      [("success", .bool false), ("error", .str ("Unsupported chart type: " ++ pyStr chart_type))]

/-!
## `backend/app/agent_creator_api.py`

Endpoint bodies run inside `try/except`; `HTTPException` outcomes are the
`HttpErr` error type (its `notFound`/`internal` constructors carry the
`detail` string and distinguish the 404 and 500 status classes).  Template
engine functions (`deploy_agent`, `validate_agent_template`) live outside
src/ and are taken as parameters of type `String → Except String String`
(they consume the `json.dumps` serialization and may raise).  The templates
directory on disk is modelled by `TemplateStore`, an association list keyed by
template id, whose head binding shadows older ones (a file write overwrites).
-/

/-- FastAPI `HTTPException` outcomes raised by the endpoints: status 404
(`notFound`) versus status 500 (`internal`), each with its `detail` string. -/
inductive HttpErr where
  | notFound : String → HttpErr
  | internal : String → HttpErr
deriving Repr

/-- Model `DeploymentOptions` (pydantic): a `sandbox` flag defaulting to true. -/
structure DeploymentOptions where
  sandbox : Bool := true
deriving Repr, DecidableEq

/-- Model `DeploymentResult` (pydantic).  `agent_id` holds the raw value read
out of the template document (`None` on failure). -/
structure DeploymentResult where
  success : Bool
  message : String
  agent_id : Option Json
deriving Repr

/-- Model `ValidationResult` (pydantic). -/
structure ValidationResult where
  valid : Bool
  message : String
  errors : Option (List String)
deriving Repr

/-- Endpoint `deploy_agent_endpoint` (`POST /deploy`): serializes the template, calls
the engine's `deploy_agent` (note: the `sandbox` option is not forwarded —
"Removed sandbox parameter to fix deployment issue"), reads
`template["agent"]["name"]` as the agent id, and converts any exception into
a structured `success=false` result with a `None` agent id. -/
def deploy_agent_endpoint (deploy_agent : String → Except String String)
    (template : Json) (options : DeploymentOptions) : DeploymentResult :=
  match deploy_agent (json_dumps template) with
  | .error e =>
    { success := false, message := "Error deploying agent: " ++ e, agent_id := none }
  | .ok result =>
    match pyIndex template "agent" with
    | .error e =>
      { success := false, message := "Error deploying agent: " ++ e, agent_id := none }
    | .ok agent =>
      match pyIndex agent "name" with
      | .error e =>
        { success := false, message := "Error deploying agent: " ++ e, agent_id := none }
      | .ok agent_id =>
        { success := true, message := result, agent_id := some agent_id }

/-- Endpoint `validate_template` (`POST /validate`): calls the engine's
`validate_agent_template` on the serialized template and converts any
exception into `{valid: false, message, errors: [str(e)]}`. -/
def validate_template (validate_agent_template : String → Except String String)
    (template : Json) : ValidationResult :=
  match validate_agent_template (json_dumps template) with
  | .ok result => { valid := true, message := result, errors := none }
  | .error e =>
    { valid := false
      message := "Error validating agent template: " ++ e
      errors := some [e] }

/-- The templates directory: one JSON file per template id.  A fresh binding
at the head shadows any older one (overwrite-on-save); deletion removes every
binding for the id (the file is gone). -/
def TemplateStore : Type := List (String × Json)

/-- Reading `store.lookup id`: the document currently stored under `id`, if any. -/
def TemplateStore.lookup (store : TemplateStore) (template_id : String) : Option Json :=
  List.lookup template_id store

/-- The summary dict `{id, name, description, type, file, template}` returned
by `save_template` and `get_template`. -/
structure TemplateInfo where
  id : String
  name : Json
  description : Json
  type : Json
  file : String
  template : Json
deriving Repr

/-- The shared dict literal of `save_template`/`get_template`:
`template.get("agent", {}).get(key, default)` for the `name`, `description`
and `type` fields (an `AttributeError` from a non-dict `"agent"` value
propagates to the surrounding `except`). -/
def templateInfoOf (templates_dir template_id : String) (template : Json) :
    Except String TemplateInfo :=
  match pyDictGet (template.getD "agent" (.obj [])) "name" (.str template_id) with
  | .error e => .error e
  | .ok name =>
    match pyDictGet (template.getD "agent" (.obj [])) "description" (.str "") with
    | .error e => .error e
    | .ok description =>
      match pyDictGet (template.getD "agent" (.obj [])) "type" (.str "") with
      | .error e => .error e
      | .ok ty =>
        .ok
          { id := template_id
            name := name
            description := description
            type := ty
            file := templates_dir ++ "/" ++ template_id ++ ".json"
            template := template }

/-- Endpoint `save_template` (`POST /templates/{template_id}`): writes the document to
`{templates_dir}/{template_id}.json` (directory auto-created, write always
succeeds), then builds the summary dict.  The write happens before the dict is
built, so the store is updated even when the summary raises and the endpoint
answers 500. -/
def save_template (templates_dir : String) (store : TemplateStore)
    (template_id : String) (template : Json) :
    Except HttpErr TemplateInfo × TemplateStore :=
  let store' : TemplateStore := (template_id, template) :: store
  match templateInfoOf templates_dir template_id template with
  | .ok info => (.ok info, store')
  | .error e => (.error (.internal ("Error saving template: " ++ e)), store')

/-- Endpoint `get_template` (`GET /templates/{template_id}`): 404 when the file does
not exist, otherwise reads the document and builds the summary dict; any other
exception becomes a 500. -/
def get_template (templates_dir : String) (store : TemplateStore)
    (template_id : String) : Except HttpErr TemplateInfo :=
  match store.lookup template_id with
  | none => .error (.notFound ("Template " ++ template_id ++ " not found"))
  | some template =>
    match templateInfoOf templates_dir template_id template with
    | .ok info => .ok info
    | .error e => .error (.internal ("Error getting template: " ++ e))

/-- Endpoint `delete_template` (`DELETE /templates/{template_id}`): 404 when the file
does not exist, otherwise unlinks it and returns the success message. -/
def delete_template (templates_dir : String) (store : TemplateStore)
    (template_id : String) : Except HttpErr String × TemplateStore :=
  match store.lookup template_id with
  | none => (.error (.notFound ("Template " ++ template_id ++ " not found")), store)
  | some _ =>
    (.ok ("Template " ++ template_id ++ " deleted successfully"),
     store.filter (fun p => p.1 != template_id))

/-- Model `ToolSpec` (pydantic). -/
structure ToolSpec where
  name : String
  description : String
  parameters : List Json
  returns : Json
  implementation : String
deriving Repr

/-- The JSON form of a tool specification as it lands in a template's
`tools` list. -/
def ToolSpec.toJson (t : ToolSpec) : Json :=
  .obj
    [ ("name", .str t.name),
      ("description", .str t.description),
      ("parameters", .arr t.parameters),
      ("returns", t.returns),
      ("implementation", .str t.implementation) ]

/-- The `tools` list of a template document. -/
def toolsOf (template : Json) : List Json :=
  match template.get? "tools" with
  | some (.arr ts) => ts
  | _ => []

/-- Modelled from the spec: `add_tool_to_template` lives in
`backend/agents/regular/agent_creator.py`, which is not under src/.  Per the
spec (§4.2), "a duplicate-name add currently succeeds by appending twice": the
engine appends the new tool to the template's `tools` list without checking
for an existing tool of the same name, and fails only on a malformed
(non-object) template document. -/
def add_tool_to_template (template : Json) (tool : Json) : Except String Json :=
  match template with
  | .obj fs => .ok (.obj (setField fs "tools" (.arr (toolsOf (.obj fs) ++ [tool]))))
  | _ => .error "Invalid template format"

/-- Endpoint `add_tool` (`POST /add-tool`): delegates to the engine's
`add_tool_to_template` and wraps any exception as a 500. -/
def add_tool (template : Json) (tool_spec : ToolSpec) : Except HttpErr Json :=
  match add_tool_to_template template tool_spec.toJson with
  | .ok updated => .ok updated
  | .error e => .error (.internal ("Error adding tool to agent template: " ++ e))

/-- A persisted `Agent` row as consumed by the relationships endpoint: the
`meta_data` JSON blob column is nullable. -/
structure DbAgent where
  id : Int
  name : String
  meta_data : Option Json
deriving Repr

/-- Endpoint `get_agent_relationships_from_db`
(`GET /db/agents/{agent_id}/relationships`): 404 when `AgentRepository.get_agent`
finds no row; otherwise extracts `{"supervisor": metadata.get("supervisor"),
"subAgents": metadata.get("subAgents", [])}` from `agent.meta_data or {}`. -/
def get_agent_relationships_from_db (get_agent : Int → Option DbAgent)
    (agent_id : Int) : Except HttpErr Json :=
  match get_agent agent_id with
  | none => .error (.notFound ("Agent with ID " ++ toString agent_id ++ " not found"))
  | some agent =>
    let metadata :=
      match agent.meta_data with
      | none => Json.obj []
      | some m => if pyTruthy m then m else Json.obj []
    match pyDictGet metadata "supervisor" .null with
    | .error e =>
      .error (.internal ("Error getting agent relationships from database: " ++ e))
    | .ok supervisor =>
      match pyDictGet metadata "subAgents" (.arr []) with
      | .error e =>
        .error (.internal ("Error getting agent relationships from database: " ++ e))
      | .ok subAgents =>
        .ok (Json.obj [("supervisor", supervisor), ("subAgents", subAgents)])

/-!
## Claim theorems
-/

/-- Containment predicate: `pat` occurs as a contiguous substring of `s`
(list-infix on the underlying character lists). -/
def strContains (s pat : String) : Prop :=
  List.IsInfix pat.data s.data

instance (s pat : String) : Decidable (strContains s pat) :=
  List.decidableInfix pat.data s.data

theorem strContains_refl (pat : String) : strContains pat pat :=
  ⟨[], [], by simp⟩

theorem strContains_append_left (s t pat : String) (h : strContains t pat) :
    strContains (s ++ t) pat := by
  obtain ⟨l, r, hd⟩ := h
  refine ⟨s.data ++ l, r, ?_⟩
  rw [String.data_append, ← hd]
  simp

/-- C1: For every template document and deployment options, `deploy` returns a
structured result and never raises past its boundary: on any rendering or
registration failure it returns `success = false` with the descriptive
`"Error deploying agent: ..."` message and a null `agent_id`; on success it
returns `success = true` with `agent_id` equal to the template's embedded
`template["agent"]["name"]`. -/
theorem deploy_endpoint_total_and_structured
    (deploy_agent : String → Except String String) (template : Json)
    (options : DeploymentOptions) :
    (∃ msg name,
        deploy_agent_endpoint deploy_agent template options =
          { success := true, message := msg, agent_id := some name } ∧
        deploy_agent (json_dumps template) = .ok msg ∧
        (pyIndex template "agent").bind (fun a => pyIndex a "name") = .ok name) ∨
    (∃ e,
        deploy_agent_endpoint deploy_agent template options =
          { success := false, message := "Error deploying agent: " ++ e,
            agent_id := none }) := by
  cases h1 : deploy_agent (json_dumps template) with
  | error e => exact .inr ⟨e, by simp [deploy_agent_endpoint, h1]⟩
  | ok msg =>
    cases h2 : pyIndex template "agent" with
    | error e => exact .inr ⟨e, by simp [deploy_agent_endpoint, h1, h2]⟩
    | ok agent =>
      cases h3 : pyIndex agent "name" with
      | error e => exact .inr ⟨e, by simp [deploy_agent_endpoint, h1, h2, h3]⟩
      | ok name =>
        exact .inl ⟨msg, name, by simp [deploy_agent_endpoint, h1, h2, h3], rfl,
          by simp [h2, h3, Except.bind]⟩

/-- C9: the filesystem deploy endpoint never forwards the `sandbox` flag, so
its result is independent of the deployment options. -/
theorem deploy_endpoint_sandbox_independent
    (deploy_agent : String → Except String String) (template : Json)
    (o₁ o₂ : DeploymentOptions) :
    deploy_agent_endpoint deploy_agent template o₁ =
      deploy_agent_endpoint deploy_agent template o₂ := rfl

/-- C5: `validate_template` never raises: a failing validation is converted
into `valid = false` with a non-empty list of violation messages, and a
non-failing validation yields `valid = true`. -/
theorem validate_template_never_raises
    (validate_agent_template : String → Except String String) (template : Json) :
    (∃ m, validate_agent_template (json_dumps template) = .ok m ∧
        validate_template validate_agent_template template =
          { valid := true, message := m, errors := none }) ∨
    (∃ e, validate_agent_template (json_dumps template) = .error e ∧
        validate_template validate_agent_template template =
          { valid := false, message := "Error validating agent template: " ++ e,
            errors := some [e] } ∧
        ∃ es, (validate_template validate_agent_template template).errors = some es ∧
          0 < es.length) := by
  unfold validate_template
  cases h : validate_agent_template (json_dumps template) with
  | ok m => exact .inl ⟨m, rfl, rfl⟩
  | error e => exact .inr ⟨e, rfl, rfl, [e], rfl, by simp⟩

theorem setField_append_of_lookup_none (fs : List (String × Json)) (key : String)
    (v : Json) (h : fs.lookup key = none) : setField fs key v = fs ++ [(key, v)] := by
  induction fs with
  | nil => rfl
  | cons p rest ih =>
    obtain ⟨k, w⟩ := p
    cases hk : (key == k) with
    | true => simp [List.lookup, hk] at h
    | false =>
      have hk2 : (k == key) = false := by
        rw [beq_eq_false_iff_ne] at hk ⊢
        exact Ne.symm hk
      simp only [List.lookup, hk] at h
      simp only [setField, hk2, Bool.false_eq_true, if_false, List.cons_append]
      rw [ih h]

theorem lookup_append_of_lookup_none (l₁ l₂ : List (String × Json)) (key : String)
    (h : l₁.lookup key = none) : (l₁ ++ l₂).lookup key = l₂.lookup key := by
  induction l₁ with
  | nil => rfl
  | cons p rest ih =>
    obtain ⟨k, w⟩ := p
    cases hk : (key == k) with
    | true => simp [List.lookup, hk] at h
    | false =>
      simp only [List.lookup, hk] at h
      simp only [List.cons_append, List.lookup, hk]
      exact ih h

theorem foldl_setField_append (ps acc : List (String × Json))
    (hdisj : ∀ p ∈ ps, acc.lookup p.1 = none)
    (hnd : (ps.map Prod.fst).Nodup) :
    ps.foldl (fun a q => setField a q.1 q.2) acc = acc ++ ps := by
  induction ps generalizing acc with
  | nil => simp
  | cons q ps ih =>
    obtain ⟨k, v⟩ := q
    have hacc : acc.lookup k = none := hdisj (k, v) (List.mem_cons_self _ _)
    have hnd' : k ∉ ps.map Prod.fst ∧ (ps.map Prod.fst).Nodup := by
      simpa [List.nodup_cons] using hnd
    have hdisj2 : ∀ p ∈ ps, (acc ++ [(k, v)]).lookup p.1 = none := by
      intro p hp
      rw [lookup_append_of_lookup_none _ _ _ (hdisj p (List.mem_cons_of_mem _ hp))]
      have hpk : (p.1 == k) = false := by
        rw [beq_eq_false_iff_ne]
        intro he
        exact hnd'.1 (by rw [← he]; exact List.mem_map_of_mem Prod.fst hp)
      simp [List.lookup, hpk]
    simp only [List.foldl_cons]
    rw [setField_append_of_lookup_none acc k v hacc, ih (acc ++ [(k, v)]) hdisj2 hnd'.2]
    simp

/-- C10 (amended): for every payload that does not itself bind the
`component`, `action` or `requestId` keys (payloads model dicts, so their
keys are distinct), the reply built by `_send_response` has the fixed
envelope shape `{type: "ui_event", data: {component, action, requestId,
...payload}}` with `component = "chart-visualizer"`, and an event lacking
`action` or `requestId` yields the string `"unknown"` in the corresponding
field rather than the send failing.  A payload key that collides with an
envelope key instead overrides the envelope value, Python dict-literal
semantics — see the counterexample. -/
theorem send_response_fixed_envelope (event : Json)
    (response_data : List (String × Json))
    (hkeys : ∀ p ∈ response_data,
      p.1 ≠ "component" ∧ p.1 ≠ "action" ∧ p.1 ≠ "requestId")
    (hnodup : (response_data.map Prod.fst).Nodup) :
    _send_response event response_data =
      { type := "ui_event"
        data := ("component", .str "chart-visualizer")
             :: ("action", (event.get? "action").getD (.str "unknown"))
             :: ("requestId", (event.get? "requestId").getD (.str "unknown"))
             :: response_data } ∧
    (event.get? "action" = none →
      (_send_response event response_data).data.lookup "action" =
        some (.str "unknown")) ∧
    (event.get? "requestId" = none →
      (_send_response event response_data).data.lookup "requestId" =
        some (.str "unknown")) := by
  have hdisj : ∀ p ∈ response_data,
      List.lookup p.1
        [("component", Json.str component_id),
         ("action", (event.get? "action").getD (.str "unknown")),
         ("requestId", (event.get? "requestId").getD (.str "unknown"))] = none := by
    intro p hp
    obtain ⟨h1, h2, h3⟩ := hkeys p hp
    simp [List.lookup, beq_eq_false_iff_ne.mpr h1, beq_eq_false_iff_ne.mpr h2,
      beq_eq_false_iff_ne.mpr h3]
  have hdata : (_send_response event response_data).data =
      ("component", .str "chart-visualizer")
        :: ("action", (event.get? "action").getD (.str "unknown"))
        :: ("requestId", (event.get? "requestId").getD (.str "unknown"))
        :: response_data := by
    simp only [_send_response]
    rw [foldl_setField_append response_data _ hdisj hnodup]
    rfl
  refine ⟨?_, ?_, ?_⟩
  · exact congrArg (fun d => ({ type := "ui_event", data := d } : UIResponse)) hdata
  · intro h
    rw [hdata]
    simp [List.lookup, h]
  · intro h
    rw [hdata]
    simp [List.lookup, h]

/-- C10 counterexample: the Python dict literal spreads `**response_data`
last, so a payload binding `component` or `action` overrides the envelope —
the reply's `component` is not `"chart-visualizer"`, and an event lacking
`action` does not get the `"unknown"` default when the payload binds
`action`. -/
theorem send_response_payload_overrides_envelope :
    (_send_response (Json.obj []) [("component", Json.str "spoof")]).data.lookup
        "component" = some (Json.str "spoof") ∧
    some (Json.str "spoof") ≠ some (Json.str "chart-visualizer") ∧
    (Json.obj [] : Json).get? "action" = none ∧
    (_send_response (Json.obj []) [("action", Json.str "hijacked")]).data.lookup
        "action" = some (Json.str "hijacked") ∧
    some (Json.str "hijacked") ≠ some (Json.str "unknown") := by
  refine ⟨rfl, ?_, rfl, rfl, ?_⟩ <;> simp

/-- C2 (amended): for every inbound bar-chart event, any exception raised
while extracting parameters, resolving the target agent, locating the tool,
or invoking it is caught and converted into the single correlated reply (the
handler's one `_send_response` envelope) with `success = false` and a
human-readable error string; when the event's `data` payload is a dict (or
absent), dispatching against a directory with no `chart_data_generator`
instance yields `success = false` with an error containing `"not found"`.
For a non-dict `data` the `AttributeError` raised at `params.get` precedes
the agent lookup — see the counterexample. -/
theorem bar_chart_dispatch_error_envelope (agents : AgentDirectory) (event : Json)
    (agent_id client_id : String) :
    ((∃ result, handle_get_bar_chart_data agents event agent_id client_id =
        _send_response event [("success", .bool true), ("chart_data", result)]) ∨
     (∃ e, handle_get_bar_chart_data agents event agent_id client_id =
        _send_response event
          [("success", .bool false),
           ("error", .str ("Error getting bar chart data: " ++ e))])) ∧
    ((event.get? "data" = none ∨ ∃ fs, event.get? "data" = some (.obj fs)) →
      agents "chart_data_generator" = none →
      handle_get_bar_chart_data agents event agent_id client_id =
        _send_response event
          [("success", .bool false),
           ("error", .str ("Error getting bar chart data: " ++
              ("Agent " ++ agent_id ++ " not found")))] ∧
      strContains ("Error getting bar chart data: " ++
        ("Agent " ++ agent_id ++ " not found")) "not found") := by
  constructor
  · cases h1 : pyDictGet (event.getD "data" (.obj [])) "categories" .null with
    | error e => exact .inr ⟨e, by simp [handle_get_bar_chart_data, h1]⟩
    | ok categories =>
      cases h2 : pyDictGet (event.getD "data" (.obj [])) "min_value" (.num 0) with
      | error e => exact .inr ⟨e, by simp [handle_get_bar_chart_data, h1, h2]⟩
      | ok min_value =>
        cases h3 : pyDictGet (event.getD "data" (.obj [])) "max_value" (.num 100) with
        | error e => exact .inr ⟨e, by simp [handle_get_bar_chart_data, h1, h2, h3]⟩
        | ok max_value =>
          cases h4 : pyDictGet (event.getD "data" (.obj [])) "num_categories" (.num 5) with
          | error e =>
            exact .inr ⟨e, by simp [handle_get_bar_chart_data, h1, h2, h3, h4]⟩
          | ok num_categories =>
            cases hagent : _get_agent_runner agents with
            | none =>
              exact .inr ⟨"Agent " ++ agent_id ++ " not found",
                by simp [handle_get_bar_chart_data, h1, h2, h3, h4, hagent]⟩
            | some agent =>
              cases htool : agent.tools.find?
                  (fun t => t.name == "generate_bar_chart_data") with
              | none =>
                exact .inr ⟨"generate_bar_chart_data tool not found",
                  by simp [handle_get_bar_chart_data, h1, h2, h3, h4, hagent, htool]⟩
              | some tool =>
                cases hf : tool.func
                    [ ("categories", categories), ("min_value", min_value),
                      ("max_value", max_value),
                      ("num_categories", num_categories) ] with
                | ok result =>
                  exact .inl ⟨result, by
                    simp [handle_get_bar_chart_data, h1, h2, h3, h4, hagent, htool, hf]⟩
                | error e =>
                  exact .inr ⟨e, by
                    simp [handle_get_bar_chart_data, h1, h2, h3, h4, hagent, htool, hf]⟩
  · intro hdata hreg
    have henv : handle_get_bar_chart_data agents event agent_id client_id =
        _send_response event
          [("success", .bool false),
           ("error", .str ("Error getting bar chart data: " ++
              ("Agent " ++ agent_id ++ " not found")))] := by
      rcases hdata with hd | ⟨fs, hd⟩ <;>
        simp [handle_get_bar_chart_data, Json.getD, hd, pyDictGet,
          _get_agent_runner, hreg]
    refine ⟨henv, ?_⟩
    apply strContains_append_left
    apply strContains_append_left
    rw [show (" not found" : String) = " " ++ "not found" by decide]
    apply strContains_append_left
    exact strContains_refl "not found"

/-- C2 counterexample: the event `{action: "get_bar_chart_data", data: 5}`
dispatched against a directory with no `chart_data_generator` instance is
answered with the `AttributeError` raised at `params.get` — before the agent
lookup — so its error string does not contain `"not found"`. -/
theorem bar_chart_non_dict_data_attribute_error :
    handle_get_bar_chart_data (fun _ => none)
        (Json.obj [("action", Json.str "get_bar_chart_data"), ("data", Json.num 5)])
        "chart_data_generator" "client-1" =
      _send_response
        (Json.obj [("action", Json.str "get_bar_chart_data"), ("data", Json.num 5)])
        [("success", Json.bool false),
         ("error", Json.str ("Error getting bar chart data: " ++
            "AttributeError: object has no attribute get"))] ∧
    ¬ strContains ("Error getting bar chart data: " ++
        "AttributeError: object has no attribute get") "not found" :=
  ⟨rfl, by set_option maxRecDepth 4096 in decide⟩

/-- C2 witness: the spec's concrete scenario — a bar-chart event with
`num_categories = 3` (a dict `data` payload) against an empty directory —
produces a `success = false` reply whose error contains `"not found"`. -/
theorem bar_chart_dispatch_error_envelope_witness :
    handle_get_bar_chart_data (fun _ => none)
        (Json.obj [("action", Json.str "get_bar_chart_data"),
                   ("data", Json.obj [("num_categories", Json.num 3)])])
        "chart_data_generator" "client-1" =
      _send_response
        (Json.obj [("action", Json.str "get_bar_chart_data"),
                   ("data", Json.obj [("num_categories", Json.num 3)])])
        [("success", Json.bool false),
         ("error", Json.str ("Error getting bar chart data: " ++
            ("Agent " ++ "chart_data_generator" ++ " not found")))] ∧
    strContains ("Error getting bar chart data: " ++
      ("Agent " ++ "chart_data_generator" ++ " not found")) "not found" :=
  (bar_chart_dispatch_error_envelope (fun _ => none)
      (Json.obj [("action", Json.str "get_bar_chart_data"),
                 ("data", Json.obj [("num_categories", Json.num 3)])])
      "chart_data_generator" "client-1").2
    (Or.inr ⟨[("num_categories", Json.num 3)], rfl⟩) rfl

theorem eqStr_false_of_ne (v : Json) (s : String) (hv : v ≠ .str s) :
    v.eqStr s = false := by
  cases v with
  | str t =>
    simp only [Json.eqStr]
    exact beq_eq_false_iff_ne.mpr (fun h => hv (by rw [h]))
  | null => rfl
  | bool b => rfl
  | num n => rfl
  | arr xs => rfl
  | obj fs => rfl

/-- C6: the `get_chart_data` router performs no logic of its own — on a
`chart_type` discriminator of `"bar"`, `"line"`, `"pie"` or `"scatter"` its
behaviour equals that of the corresponding typed handler on the same event,
and on any other discriminator value it replies `success = false` with an
explicit unsupported-type error. -/
theorem get_chart_data_router_refines_typed_handlers (agents : AgentDirectory)
    (event : Json) (agent_id client_id : String) :
    ((event.getD "data" (.obj [])).get? "chart_type" = some (.str "bar") →
      handle_get_chart_data agents event agent_id client_id =
        handle_get_bar_chart_data agents event agent_id client_id) ∧
    ((event.getD "data" (.obj [])).get? "chart_type" = some (.str "line") →
      handle_get_chart_data agents event agent_id client_id =
        handle_get_line_chart_data agents event agent_id client_id) ∧
    ((event.getD "data" (.obj [])).get? "chart_type" = some (.str "pie") →
      handle_get_chart_data agents event agent_id client_id =
        handle_get_pie_chart_data agents event agent_id client_id) ∧
    ((event.getD "data" (.obj [])).get? "chart_type" = some (.str "scatter") →
      handle_get_chart_data agents event agent_id client_id =
        handle_get_scatter_plot_data agents event agent_id client_id) ∧
    (∀ v, (event.getD "data" (.obj [])).get? "chart_type" = some v →
      v ≠ .str "bar" → v ≠ .str "line" → v ≠ .str "pie" → v ≠ .str "scatter" →
      handle_get_chart_data agents event agent_id client_id =
        _send_response event
          [("success", .bool false),
           ("error", .str ("Unsupported chart type: " ++ pyStr v))]) := by
  refine ⟨?_, ?_, ?_, ?_, ?_⟩
  · intro h
    simp only [Json.getD] at h
    simp [handle_get_chart_data, Json.getD, h, Json.eqStr]
  · intro h
    simp only [Json.getD] at h
    simp [handle_get_chart_data, Json.getD, h, Json.eqStr]
  · intro h
    simp only [Json.getD] at h
    simp [handle_get_chart_data, Json.getD, h, Json.eqStr]
  · intro h
    simp only [Json.getD] at h
    simp [handle_get_chart_data, Json.getD, h, Json.eqStr]
  · intro v h h1 h2 h3 h4
    simp only [Json.getD] at h
    have e1 := eqStr_false_of_ne v "bar" h1
    have e2 := eqStr_false_of_ne v "line" h2
    have e3 := eqStr_false_of_ne v "pie" h3
    have e4 := eqStr_false_of_ne v "scatter" h4
    simp [handle_get_chart_data, Json.getD, h, e1, e2, e3, e4]

/-- C6 witness: on a concrete `chart_type = "pie"` event the router equals the
pie handler, and on a concrete `chart_type = "donut"` event it produces the
unsupported-type reply. -/
theorem get_chart_data_router_refines_typed_handlers_witness :
    (handle_get_chart_data (fun _ => none)
        (Json.obj [("data", Json.obj [("chart_type", Json.str "pie")])]) "a" "c" =
      handle_get_pie_chart_data (fun _ => none)
        (Json.obj [("data", Json.obj [("chart_type", Json.str "pie")])]) "a" "c") ∧
    (handle_get_chart_data (fun _ => none)
        (Json.obj [("data", Json.obj [("chart_type", Json.str "donut")])]) "a" "c" =
      _send_response (Json.obj [("data", Json.obj [("chart_type", Json.str "donut")])])
        [("success", Json.bool false),
         ("error", Json.str ("Unsupported chart type: " ++ pyStr (Json.str "donut")))]) :=
  ⟨(get_chart_data_router_refines_typed_handlers (fun _ => none)
      (Json.obj [("data", Json.obj [("chart_type", Json.str "pie")])]) "a" "c").2.2.1 rfl,
   (get_chart_data_router_refines_typed_handlers (fun _ => none)
      (Json.obj [("data", Json.obj [("chart_type", Json.str "donut")])]) "a" "c").2.2.2.2
      (Json.str "donut") rfl (by simp) (by simp) (by simp) (by simp)⟩

/-- C10 witness: a concrete event with neither `action` nor `requestId`
yields `"unknown"` in both reply fields. -/
theorem send_response_fixed_envelope_witness :
    (_send_response (Json.obj [("data", Json.obj [])])
        [("success", Json.bool true)]).data.lookup "action" =
      some (Json.str "unknown") ∧
    (_send_response (Json.obj [("data", Json.obj [])])
        [("success", Json.bool true)]).data.lookup "requestId" =
      some (Json.str "unknown") :=
  ⟨(send_response_fixed_envelope (Json.obj [("data", Json.obj [])])
      [("success", Json.bool true)] (by decide) (by decide)).2.1 rfl,
   (send_response_fixed_envelope (Json.obj [("data", Json.obj [])])
      [("success", Json.bool true)] (by decide) (by decide)).2.2 rfl⟩

theorem lookup_cons_self (store : TemplateStore) (template_id : String) (doc : Json) :
    TemplateStore.lookup ((template_id, doc) :: store) template_id = some doc := by
  simp [TemplateStore.lookup, List.lookup]

theorem lookup_filter_erased (store : TemplateStore) (template_id : String) :
    TemplateStore.lookup (store.filter fun p => p.1 != template_id) template_id =
      none := by
  induction store with
  | nil => rfl
  | cons p rest ih =>
    obtain ⟨k, v⟩ := p
    by_cases hk : k = template_id
    · have hb : (k != template_id) = false := by simp [hk]
      simp only [List.filter_cons, hb, Bool.false_eq_true, if_false]
      exact ih
    · have hb : (k != template_id) = true := by simp [hk]
      have hb2 : (template_id == k) = false := beq_eq_false_iff_ne.mpr (Ne.symm hk)
      simp only [List.filter_cons, hb, if_true]
      simp only [TemplateStore.lookup, List.lookup, hb2] at ih ⊢
      exact ih

theorem templateInfoOf_ok (templates_dir template_id : String) (template : Json)
    (h : template.get? "agent" = none ∨
         ∃ fs, template.get? "agent" = some (.obj fs)) :
    ∃ i, templateInfoOf templates_dir template_id template = .ok i := by
  rcases h with h | ⟨fs, h⟩ <;>
    simp [templateInfoOf, Json.getD, h, pyDictGet]

theorem templateInfoOf_template (templates_dir template_id : String)
    (template : Json) (i : TemplateInfo)
    (h : templateInfoOf templates_dir template_id template = .ok i) :
    i.template = template := by
  unfold templateInfoOf at h
  split at h
  · simp at h
  split at h
  · simp at h
  split at h
  · simp at h
  injection h with h2
  rw [← h2]

/-- C3: saving a well-formed template document (here: one whose `"agent"`
field, when present, is an object) under an id and then getting that id
returns a stored document equal to the saved one. -/
theorem template_save_get_roundtrip (templates_dir : String)
    (store : TemplateStore) (template_id : String) (template : Json)
    (h : template.get? "agent" = none ∨
         ∃ fs, template.get? "agent" = some (.obj fs)) :
    ∃ info info' store',
      save_template templates_dir store template_id template = (.ok info, store') ∧
      info.template = template ∧
      get_template templates_dir store' template_id = .ok info' ∧
      info'.template = template := by
  obtain ⟨i, hi⟩ := templateInfoOf_ok templates_dir template_id template h
  have hit := templateInfoOf_template templates_dir template_id template i hi
  refine ⟨i, i, (template_id, template) :: store, ?_, hit, ?_, hit⟩
  · simp [save_template, hi]
  · simp [get_template, lookup_cons_self, hi]

/-- C3 witness: round trip at a concrete id and template document. -/
theorem template_save_get_roundtrip_witness :
    ∃ info info' store',
      save_template "templates" [] "digest-bot"
          (Json.obj [("agent", Json.obj [("name", Json.str "digest_bot")])]) =
        (.ok info, store') ∧
      info.template =
        Json.obj [("agent", Json.obj [("name", Json.str "digest_bot")])] ∧
      get_template "templates" store' "digest-bot" = .ok info' ∧
      info'.template =
        Json.obj [("agent", Json.obj [("name", Json.str "digest_bot")])] :=
  template_save_get_roundtrip "templates" [] "digest-bot"
    (Json.obj [("agent", Json.obj [("name", Json.str "digest_bot")])])
    (Or.inr ⟨[("name", Json.str "digest_bot")], rfl⟩)

/-- C4: `get`/`delete` on an id with no stored template is the distinct
not-found (404) outcome, not a generic failure or a default template; and
after a successful delete of an id, a get on that id is the not-found
outcome, never the previously stored template. -/
theorem template_missing_and_deleted_not_found (templates_dir : String)
    (store : TemplateStore) (template_id : String) :
    (store.lookup template_id = none →
      get_template templates_dir store template_id =
        .error (.notFound ("Template " ++ template_id ++ " not found")) ∧
      delete_template templates_dir store template_id =
        (.error (.notFound ("Template " ++ template_id ++ " not found")), store)) ∧
    (∀ doc, store.lookup template_id = some doc →
      delete_template templates_dir store template_id =
        (.ok ("Template " ++ template_id ++ " deleted successfully"),
         store.filter (fun p => p.1 != template_id)) ∧
      get_template templates_dir (store.filter (fun p => p.1 != template_id))
          template_id =
        .error (.notFound ("Template " ++ template_id ++ " not found"))) := by
  constructor
  · intro h
    exact ⟨by simp [get_template, h], by simp [delete_template, h]⟩
  · intro doc h
    refine ⟨by simp [delete_template, h], ?_⟩
    simp [get_template, lookup_filter_erased]

/-- C4 witness: a get and a delete on an empty store are 404, and deleting a
present id then getting it is 404. -/
theorem template_missing_and_deleted_not_found_witness :
    (get_template "templates" [] "missing-id" =
      .error (.notFound ("Template " ++ "missing-id" ++ " not found")) ∧
     delete_template "templates" [] "missing-id" =
      (.error (.notFound ("Template " ++ "missing-id" ++ " not found")), [])) ∧
    (delete_template "templates" [("t1", Json.obj [])] "t1" =
      (.ok ("Template " ++ "t1" ++ " deleted successfully"),
       [("t1", Json.obj [])].filter (fun p => p.1 != "t1")) ∧
     get_template "templates"
        ([("t1", Json.obj [])].filter (fun p => p.1 != "t1")) "t1" =
      .error (.notFound ("Template " ++ "t1" ++ " not found"))) :=
  ⟨(template_missing_and_deleted_not_found "templates" [] "missing-id").1 rfl,
   (template_missing_and_deleted_not_found "templates" [("t1", Json.obj [])] "t1").2
     (Json.obj []) rfl⟩

theorem lookup_setField_self (fs : List (String × Json)) (key : String) (v : Json) :
    (setField fs key v).lookup key = some v := by
  induction fs with
  | nil => simp [setField, List.lookup]
  | cons p rest ih =>
    obtain ⟨k, w⟩ := p
    by_cases h : k = key
    · simp [setField, h, List.lookup]
    · have hb : (k == key) = false := beq_eq_false_iff_ne.mpr h
      have hb2 : (key == k) = false := beq_eq_false_iff_ne.mpr (Ne.symm h)
      simp only [setField, hb, Bool.false_eq_true, if_false, List.lookup, hb2]
      exact ih

theorem lookup_setField_ne (fs : List (String × Json)) (key : String) (v : Json)
    (k' : String) (h : k' ≠ key) :
    (setField fs key v).lookup k' = fs.lookup k' := by
  have hb' : (k' == key) = false := beq_eq_false_iff_ne.mpr h
  induction fs with
  | nil => simp [setField, List.lookup, hb']
  | cons p rest ih =>
    obtain ⟨k, w⟩ := p
    by_cases hk : k = key
    · subst hk
      simp [setField, List.lookup, hb']
    · have hb : (k == key) = false := beq_eq_false_iff_ne.mpr hk
      simp only [setField, hb, Bool.false_eq_true, if_false, List.lookup]
      cases hkk : k' == k with
      | true => rfl
      | false => exact ih

/-- C7 counterexample: a template that already contains a tool named `"t"`,
to which `add_tool` adds another tool named `"t"` — the duplicate-name add is
not rejected: it succeeds and appends the tool a second time. -/
theorem add_tool_duplicate_not_rejected :
    toolsOf (Json.obj
        [("agent", Json.obj [("name", Json.str "writer")]),
         ("tools", Json.arr [ToolSpec.toJson ⟨"t", "d", [], Json.obj [], "pass"⟩])]) =
      [ToolSpec.toJson ⟨"t", "d", [], Json.obj [], "pass"⟩] ∧
    (ToolSpec.toJson ⟨"t", "d", [], Json.obj [], "pass"⟩).get? "name" =
      some (Json.str "t") ∧
    add_tool
        (Json.obj
          [("agent", Json.obj [("name", Json.str "writer")]),
           ("tools", Json.arr [ToolSpec.toJson ⟨"t", "d", [], Json.obj [], "pass"⟩])])
        ⟨"t", "d", [], Json.obj [], "pass"⟩ =
      .ok (Json.obj
        [("agent", Json.obj [("name", Json.str "writer")]),
         ("tools", Json.arr [ToolSpec.toJson ⟨"t", "d", [], Json.obj [], "pass"⟩,
            ToolSpec.toJson ⟨"t", "d", [], Json.obj [], "pass"⟩])]) :=
  ⟨rfl, rfl, rfl⟩

/-- C7 (amended): `add_tool` on an object template succeeds for every tool
specification — including one whose name collides with an existing tool, in
which case the tool is appended a second time — and returns a new template
with the tool appended to the `tools` list, existing tools (order and fields)
and every other template field unchanged. -/
theorem add_tool_appends_preserving_existing (template : Json)
    (fs : List (String × Json)) (tool_spec : ToolSpec)
    (h : template = .obj fs) :
    ∃ updated, add_tool template tool_spec = .ok updated ∧
      toolsOf updated = toolsOf template ++ [tool_spec.toJson] ∧
      ∀ k, k ≠ "tools" → updated.get? k = template.get? k := by
  subst h
  refine ⟨.obj (setField fs "tools"
      (.arr (toolsOf (.obj fs) ++ [tool_spec.toJson]))), rfl, ?_, ?_⟩
  · simp [toolsOf, Json.get?, lookup_setField_self]
  · intro k hk
    simp [Json.get?, lookup_setField_ne fs "tools" _ k hk]

/-- C7 witness for the amended claim: adding a tool to a concrete template
with one existing tool appends it, keeping the existing tool first. -/
theorem add_tool_appends_preserving_existing_witness :
    ∃ updated,
      add_tool (Json.obj [("agent", Json.obj []),
          ("tools", Json.arr [ToolSpec.toJson ⟨"a", "", [], Json.obj [], ""⟩])])
          ⟨"b", "", [], Json.obj [], ""⟩ =
        .ok updated ∧
      toolsOf updated =
        toolsOf (Json.obj [("agent", Json.obj []),
          ("tools", Json.arr [ToolSpec.toJson ⟨"a", "", [], Json.obj [], ""⟩])]) ++
          [ToolSpec.toJson ⟨"b", "", [], Json.obj [], ""⟩] ∧
      ∀ k, k ≠ "tools" →
        updated.get? k =
          (Json.obj [("agent", Json.obj []),
            ("tools", Json.arr [ToolSpec.toJson ⟨"a", "", [], Json.obj [], ""⟩])]).get? k :=
  add_tool_appends_preserving_existing
    (Json.obj [("agent", Json.obj []),
      ("tools", Json.arr [ToolSpec.toJson ⟨"a", "", [], Json.obj [], ""⟩])])
    [("agent", Json.obj []),
     ("tools", Json.arr [ToolSpec.toJson ⟨"a", "", [], Json.obj [], ""⟩])]
    ⟨"b", "", [], Json.obj [], ""⟩ rfl

/-- C8: for every agent id present in the store, the relationships endpoint
returns `{supervisor, subAgents}` extracted from the stored row's metadata;
absent metadata — or object metadata lacking those keys — yields
`{supervisor: null, subAgents: []}` rather than an error. -/
theorem agent_relationships_extraction (get_agent : Int → Option DbAgent)
    (agent_id : Int) (agent : DbAgent)
    (h : get_agent agent_id = some agent) :
    (agent.meta_data = none →
      get_agent_relationships_from_db get_agent agent_id =
        .ok (.obj [("supervisor", .null), ("subAgents", .arr [])])) ∧
    (∀ fs, agent.meta_data = some (.obj fs) →
      get_agent_relationships_from_db get_agent agent_id =
        .ok (.obj [("supervisor", (fs.lookup "supervisor").getD .null),
                   ("subAgents", (fs.lookup "subAgents").getD (.arr []))])) := by
  constructor
  · intro hm
    simp [get_agent_relationships_from_db, h, hm, pyDictGet]
  · intro fs hm
    cases fs with
    | nil => simp [get_agent_relationships_from_db, h, hm, pyTruthy, pyDictGet]
    | cons p rest =>
      simp [get_agent_relationships_from_db, h, hm, pyTruthy, pyDictGet]

/-- C8 witness: a row with null metadata yields `{supervisor: null,
subAgents: []}`, and a row whose metadata names a supervisor yields it. -/
theorem agent_relationships_extraction_witness :
    get_agent_relationships_from_db
        (fun i => if i = 1 then some ⟨1, "kid", none⟩ else none) 1 =
      .ok (.obj [("supervisor", .null), ("subAgents", .arr [])]) ∧
    get_agent_relationships_from_db
        (fun i => if i = 2 then
            some ⟨2, "kid2", some (Json.obj [("supervisor", Json.str "boss")])⟩
          else none) 2 =
      .ok (.obj
        [("supervisor",
            (([("supervisor", Json.str "boss")] :
              List (String × Json)).lookup "supervisor").getD .null),
         ("subAgents",
            (([("supervisor", Json.str "boss")] :
              List (String × Json)).lookup "subAgents").getD (.arr []))]) :=
  ⟨(agent_relationships_extraction
      (fun i => if i = 1 then some ⟨1, "kid", none⟩ else none) 1
      ⟨1, "kid", none⟩ rfl).1 rfl,
   (agent_relationships_extraction
      (fun i => if i = 2 then
          some ⟨2, "kid2", some (Json.obj [("supervisor", Json.str "boss")])⟩
        else none) 2
      ⟨2, "kid2", some (Json.obj [("supervisor", Json.str "boss")])⟩ rfl).2
      [("supervisor", Json.str "boss")] rfl⟩

end Mosaic
